import Mathlib

/-!
# activate-linux: the overlay program

A shallow embedding of `src/main.c` (the flag-driven program) and of the parts in
which the older fixed-configuration program (`main.c` at the repository root)
differs from it.  The program talks to the X server through Xlib, Xft and
XFixes; a run is modelled as the list of library calls it issues, each with the
arguments that matter and, for calls whose result steers the control flow, the
value returned.  The values the libraries return are collected in a `World`.

C integers are mathematical integers reduced explicitly at every conversion:
`size_t` is 64 bits wide, `int` and `unsigned int` are 32 bits wide.
-/

namespace ActivateLinux

/-! ## C integer conversions -/

/-- Value of an integer after conversion to `size_t` (64-bit unsigned). -/
def to_size_t (z : Int) : Int := z % 18446744073709551616

/-- Value of an integer after conversion to `int` (32-bit two's complement). -/
def to_int (z : Int) : Int := (z + 2147483648) % 4294967296 - 2147483648

/-- Value of an integer after conversion to `unsigned int` (32-bit unsigned). -/
def to_uint (z : Int) : Int := z % 4294967296

/-- Addition of two `int` operands, the result again an `int`. -/
def int_add (a b : Int) : Int := to_int (a + b)

/-- Subtraction of two `size_t` operands, the result again a `size_t`. -/
def size_sub (a b : Int) : Int := to_size_t (a - b)

/-! ## X11 constants (from `X.h`) -/

def Expose : Int := 12
def VisibilityNotify : Int := 15
def CreateNotify : Int := 16
def MapNotify : Int := 19
def ConfigureNotify : Int := 22

def VisibilityUnobscured : Int := 0
def VisibilityPartiallyObscured : Int := 1
def VisibilityFullyObscured : Int := 2

def ExposureMask : Nat := 1 <<< 15
def VisibilityChangeMask : Nat := 1 <<< 16
def SubstructureNotifyMask : Nat := 1 <<< 19

/-! ## Data -/

/-- Server-side identifier of a window. -/
abbrev Window := Nat

/-- Server-side identifier of a colormap. -/
abbrev Colormap := Nat

/-- Handle of an open display connection. -/
abbrev Display := Nat

/-- Handle of an Xft draw context. -/
abbrev XftDraw := Nat

/-- An open Xft font: the name it was opened from and the two metrics the
program reads (`int` fields of the C structure). -/
structure XftFont where
  name : String
  ascent : Int
  descent : Int
deriving DecidableEq, Repr

/-- The four 16-bit channels of an `XRenderColor`. -/
structure XRenderColor where
  red : Nat
  green : Nat
  blue : Nat
  alpha : Nat
deriving DecidableEq, Repr

/-- What `XMatchVisualInfo` fills in. -/
structure XVisualInfo where
  visual : Nat
  depth : Int
deriving DecidableEq, Repr

/-- The fields of the `XEvent` union the loop reads: the type tag, the `state`
of the `XVisibilityEvent` view and the `window` of the `XConfigureEvent` view. -/
structure XEvent where
  type : Int
  state : Int
  window : Window
deriving DecidableEq, Repr

/-- The values of the command line flags after `flag_parse`. -/
structure Flags where
  help : Bool
  header_font_name : String
  footer_font_name : String
  header_text : String
  footer_text : String
  /-- A `uint64_t` holding the packed colour. -/
  foreground_color : Nat
  /-- The paddings, `size_t` values. -/
  xpad : Int
  ypad : Int
deriving DecidableEq, Repr

/-- The flag values when the command line gives none. -/
def default_flags : Flags :=
  { help := false
    header_font_name := "Roboto:size=15"
    footer_font_name := "Roboto:size=11"
    header_text := "Activate Linux"
    footer_text := "Go to Settings to activate Linux"
    foreground_color := 0x928374
    xpad := 25
    ypad := 49 }

/-- A library call issued by the program.  Calls whose result decides the
control flow carry the result; release calls on a variable that was never
assigned carry `none`. -/
inductive Call where
  | usage (to_stdout : Bool)
  | flag_print_error
  | fprintf (msg : String)
  | XOpenDisplay (result : Option Display)
  | XftFontOpenName (name : String) (result : Option XftFont)
  | XftTextExtentsUtf8 (font : XftFont) (text : String)
  | XMatchVisualInfo (result : Option XVisualInfo)
  | XCreateColormap (result : Colormap)
  | XCreateWindow (x y width height : Int) (result : Window)
  | XFixesCreateRegion
  | XFixesSetWindowShapeRegion (w : Window)
  | XFixesDestroyRegion
  | XftDrawCreate (w : Window) (result : Option XftDraw)
  | XftColorAllocValue (color : XRenderColor)
  | XSetClassHint (w : Window) (res_name res_class : String)
  | XSelectInput (w : Window) (mask : Nat)
  | XMapWindow (w : Window)
  | XNextEvent
  | XRaiseWindow (w : Window)
  | XftDrawStringUtf8 (color : XRenderColor) (font : XftFont) (x y : Int) (text : String)
  | XftFontClose (font : XftFont)
  | XftColorFree (color : Option XRenderColor)
  | XftDrawDestroy (draw : XftDraw)
  | XFreeColormap (cmap : Option Colormap)
  | XDestroyWindow (w : Option Window)
  | XCloseDisplay (d : Display)
deriving DecidableEq, Repr

/-- What the libraries and the server answer during one run. -/
structure World where
  /-- Result of `flag_parse`: `none` when the command line is rejected. -/
  flags : Option Flags
  /-- Result of `XOpenDisplay(NULL)`. -/
  display : Option Display
  /-- Result of `XftFontOpenName` for a font name. -/
  open_font : String → Option XftFont
  /-- The `xOff` field (a `short`) `XftTextExtentsUtf8` reports for a text. -/
  xOff : XftFont → String → Int
  /-- Result of `DefaultRootWindow`. -/
  root : Window
  /-- Results of `DisplayWidth` and `DisplayHeight` (both `int`). -/
  screen_width : Int
  screen_height : Int
  /-- Result of `XMatchVisualInfo` for depth 32, class TrueColor. -/
  visual : Option XVisualInfo
  /-- Result of `XCreateColormap`. -/
  colormap : Colormap
  /-- Result of `XCreateWindow`. -/
  overlay : Window
  /-- Result of `XftDrawCreate`. -/
  draw : Option XftDraw
  /-- The events `XNextEvent` delivers, in order. -/
  events : List XEvent

/-- Outcome of a run: the calls issued and the exit status, `none` while the
program is blocked in `XNextEvent`. -/
structure Run where
  calls : List Call
  exit : Option Int
deriving DecidableEq, Repr

/-! ## Helpers of the program -/

/-- The macro `render_color(c)` of `src/main.c`. -/
def render_color (c : Nat) : XRenderColor :=
  { red := ((c >>> (2 * 8)) &&& 0xFF) <<< 8
    green := ((c >>> (1 * 8)) &&& 0xFF) <<< 8
    blue := ((c >>> (0 * 8)) &&& 0xFF) <<< 8
    alpha := 0xFF }

/-- The macro `render_color(c)` of the older `main.c`, which takes the alpha
channel from byte 3 of the packed colour. -/
def legacy_render_color (c : Nat) : XRenderColor :=
  { red := ((c >>> (2 * 8)) &&& 0xFF) <<< 8
    green := ((c >>> (1 * 8)) &&& 0xFF) <<< 8
    blue := ((c >>> (0 * 8)) &&& 0xFF) <<< 8
    alpha := ((c >>> (3 * 8)) &&& 0xFF) <<< 8 }

/-- The constant `FOREGROUND_COLOR` of the older `main.c`. -/
def LEGACY_FOREGROUND_COLOR : Nat := 0xFF928374

/-! ## Geometry -/

/-- The variable `header_width` (and `footer_width`): `extents.xOff` stored in a `size_t`. -/
def text_width (xOff : Int) : Int := to_size_t xOff

/-- The variable `overlay_width`. -/
def overlay_width (header_width footer_width : Int) : Int :=
  if header_width > footer_width then header_width else footer_width

/-- The variable `overlay_height`: an `int` sum stored in a `size_t`. -/
def overlay_height (header_font footer_font : XftFont) : Int :=
  to_size_t
    (int_add (int_add (int_add header_font.ascent header_font.descent) footer_font.ascent)
      footer_font.descent)

/-- The third argument of `XCreateWindow`: `width - overlay_width - *xpad`
computed in `size_t` and passed as `int`. -/
def window_x (width overlay_width xpad : Int) : Int :=
  to_int (size_sub (size_sub width overlay_width) xpad)

/-- The fourth argument of `XCreateWindow`: `height - overlay_height - *ypad`
computed in `size_t` and passed as `int`. -/
def window_y (height overlay_height ypad : Int) : Int :=
  to_int (size_sub (size_sub height overlay_height) ypad)

/-- The `y` argument of the footer draw: an `int` sum. -/
def footer_baseline (header_font footer_font : XftFont) : Int :=
  int_add (int_add header_font.ascent header_font.descent) footer_font.ascent

/-! ## The event loop -/

/-- The body of the `while (1)` loop after `XNextEvent` has returned `e`: the
three `if` statements in source order. -/
def handle_event (overlay : Window) (fl : Flags) (header_font footer_font : XftFont)
    (foreground : XRenderColor) (e : XEvent) : List Call :=
  (if e.type = VisibilityNotify then
      (if e.state ≠ VisibilityUnobscured then [Call.XRaiseWindow overlay] else [])
    else []) ++
  (if e.type = ConfigureNotify then
      (if e.window ≠ overlay then [Call.XRaiseWindow overlay] else [])
    else []) ++
  (if e.type = Expose then
      [Call.XftDrawStringUtf8 foreground header_font 0 header_font.ascent fl.header_text,
       Call.XftDrawStringUtf8 foreground footer_font 0
         (footer_baseline header_font footer_font) fl.footer_text]
    else [])

/-- The iterations of the `while (1)` loop that the delivered events drive:
each one is a return of `XNextEvent` followed by the three `if` statements. -/
def event_loop (overlay : Window) (fl : Flags) (header_font footer_font : XftFont)
    (foreground : XRenderColor) : List XEvent → List Call
  | [] => []
  | e :: es =>
    Call.XNextEvent ::
      (handle_event overlay fl header_font footer_font foreground e ++
        event_loop overlay fl header_font footer_font foreground es)

/-! ## Startup and the unwind block -/

/-- The local variables the `defer:` block reads.  A variable the control flow
has jumped over without assigning it is `none`. -/
structure Vars where
  draw : Option XftDraw
  display : Option Display
  header_font : Option XftFont
  footer_font : Option XftFont
  colormap : Option Colormap
  overlay : Option Window
  foreground : Option XRenderColor
deriving DecidableEq, Repr

/-- The statements under the label `defer:` up to `return result`. -/
def defer (v : Vars) : List Call :=
  (match v.header_font with
    | some f => [Call.XftFontClose f]
    | none => []) ++
  (match v.footer_font with
    | some f => [Call.XftFontClose f]
    | none => []) ++
  (match v.draw with
    | some d => [Call.XftColorFree v.foreground, Call.XftDrawDestroy d]
    | none => []) ++
  (match v.display with
    | some d => [Call.XFreeColormap v.colormap, Call.XDestroyWindow v.overlay, Call.XCloseDisplay d]
    | none => [])

/-- The macro `return_defer(value)` after the calls `done`: jump to `defer:`
and return `value`. -/
def return_defer (done : List Call) (v : Vars) (value : Int) : Run :=
  { calls := done ++ defer v, exit := some value }

/-- The part the two programs share, from `int result = 0;` to the end of
`main`: startup, the event loop, the unwind block.  `fl` holds the configuration
(flag values in `src/main.c`, the `#define`d constants in the older `main.c`)
and `color` the value of the local `color`.  After the last delivered event the
program is blocked in `XNextEvent` and has no exit status. -/
def run_overlay (fl : Flags) (color : XRenderColor) (w : World) : Run :=
  let v0 : Vars :=
    { draw := none, display := none, header_font := none, footer_font := none,
      colormap := none, overlay := none, foreground := none }
  let c1 := [Call.XOpenDisplay w.display]
  match w.display with
  | none => return_defer (c1 ++ [Call.fprintf "error: could not open display\n"]) v0 1
  | some display =>
  let hf := w.open_font fl.header_font_name
  let ff := w.open_font fl.footer_font_name
  let v1 : Vars := { v0 with display := some display, header_font := hf, footer_font := ff }
  let c2 := c1 ++
    [Call.XftFontOpenName fl.header_font_name hf, Call.XftFontOpenName fl.footer_font_name ff]
  match hf, ff with
  | some header_font, some footer_font =>
    let header_width := text_width (w.xOff header_font fl.header_text)
    let footer_width := text_width (w.xOff footer_font fl.footer_text)
    let ow := overlay_width header_width footer_width
    let oh := overlay_height header_font footer_font
    let width := to_size_t w.screen_width
    let height := to_size_t w.screen_height
    let c3 := c2 ++
      [Call.XftTextExtentsUtf8 header_font fl.header_text,
       Call.XftTextExtentsUtf8 footer_font fl.footer_text,
       Call.XMatchVisualInfo w.visual]
    match w.visual with
    | none => return_defer (c3 ++ [Call.fprintf "error: could not find ARGB visual\n"]) v1 1
    | some _ =>
    let v2 : Vars := { v1 with colormap := some w.colormap, overlay := some w.overlay }
    let c4 := c3 ++
      [Call.XCreateColormap w.colormap,
       Call.XCreateWindow (window_x width ow fl.xpad) (window_y height oh fl.ypad)
         (to_uint ow) (to_uint oh) w.overlay,
       Call.XFixesCreateRegion,
       Call.XFixesSetWindowShapeRegion w.overlay,
       Call.XFixesDestroyRegion,
       Call.XftDrawCreate w.overlay w.draw]
    match w.draw with
    | none =>
      return_defer (c4 ++ [Call.fprintf "error: could not create xft draw context\n"]) v2 1
    | some _ =>
    let c5 := c4 ++
      [Call.XftColorAllocValue color,
       Call.XSetClassHint w.overlay "overlay" "Overlay",
       Call.XSelectInput w.root SubstructureNotifyMask,
       Call.XSelectInput w.overlay (ExposureMask ||| VisibilityChangeMask),
       Call.XMapWindow w.overlay]
    { calls := c5 ++ event_loop w.overlay fl header_font footer_font color w.events ++
        [Call.XNextEvent],
      exit := none }
  | _, _ => return_defer (c2 ++ [Call.fprintf "error: could not open font\n"]) v1 1

/-- The function `main` of `src/main.c`. -/
def main (w : World) : Run :=
  match w.flags with
  | none => { calls := [Call.usage false, Call.flag_print_error], exit := some 1 }
  | some fl =>
    if fl.help then { calls := [Call.usage true], exit := some 0 }
    else run_overlay fl (render_color fl.foreground_color) w

/-- The configuration the older `main.c` fixes with `#define`. -/
def LEGACY_CONFIG : Flags :=
  { help := false
    header_font_name := "Roboto:size=15"
    footer_font_name := "Roboto:size=11"
    header_text := "Activate Linux"
    footer_text := "Go to Settings to activate Linux"
    foreground_color := LEGACY_FOREGROUND_COLOR
    xpad := 25
    ypad := 49 }

/-- The function `main` of the older `main.c`. -/
def legacy_main (w : World) : Run :=
  run_overlay LEGACY_CONFIG (legacy_render_color LEGACY_FOREGROUND_COLOR) w

/-! ## Resources -/

/-- The resources startup acquires and the unwind block releases.  (The XFixes
region is created and destroyed inside startup and never reaches the unwind
block.) -/
inductive Resource where
  | display
  | font (f : XftFont)
  | colormap
  | window
  | draw
  | color
deriving DecidableEq, Repr

/-- The resource a call acquires, when it returns one. -/
def Call.acquires : Call → Option Resource
  | Call.XOpenDisplay (some _) => some Resource.display
  | Call.XftFontOpenName _ (some f) => some (Resource.font f)
  | Call.XCreateColormap _ => some Resource.colormap
  | Call.XCreateWindow _ _ _ _ _ => some Resource.window
  | Call.XftDrawCreate _ (some _) => some Resource.draw
  | Call.XftColorAllocValue _ => some Resource.color
  | _ => none

/-- The resource a call releases. -/
def Call.releases : Call → Option Resource
  | Call.XftFontClose f => some (Resource.font f)
  | Call.XftColorFree _ => some Resource.color
  | Call.XftDrawDestroy _ => some Resource.draw
  | Call.XFreeColormap _ => some Resource.colormap
  | Call.XDestroyWindow _ => some Resource.window
  | Call.XCloseDisplay _ => some Resource.display
  | _ => none

/-- The resources a run acquired, in order. -/
def acquired (r : Run) : List Resource := r.calls.filterMap Call.acquires

/-- The resources a run released, in order. -/
def released (r : Run) : List Resource := r.calls.filterMap Call.releases

/-- The order in which the unwind block goes through the resources: header
font, footer font, colour, draw context, colormap, window, display. -/
def release_order (header_font footer_font : Option XftFont) : List Resource :=
  header_font.toList.map Resource.font ++ footer_font.toList.map Resource.font ++
    [Resource.color, Resource.draw, Resource.colormap, Resource.window, Resource.display]

/-- Whether a call maps a window. -/
def Call.maps_window : Call → Bool
  | Call.XMapWindow _ => true
  | _ => false

/-- Whether a call belongs to the event loop. -/
def Call.in_loop : Call → Bool
  | Call.XNextEvent => true
  | Call.XRaiseWindow _ => true
  | Call.XftDrawStringUtf8 _ _ _ _ _ => true
  | _ => false

/-! ## Sample worlds -/

/-- The end-to-end example: a 1920x1080 screen, a header 140 wide in a font with
ascent 14 and descent 4, a footer 210 wide in a font with ascent 10 and descent 3. -/
def sample_world : World :=
  { flags := some default_flags
    display := some 1
    open_font := fun name =>
      if name = "Roboto:size=15" then some ⟨name, 14, 4⟩
      else if name = "Roboto:size=11" then some ⟨name, 10, 3⟩
      else none
    xOff := fun f _ => if f.name = "Roboto:size=15" then 140 else 210
    root := 2
    screen_width := 1920
    screen_height := 1080
    visual := some ⟨3, 32⟩
    colormap := 4
    overlay := 5
    draw := some 6
    events := [] }

/-- The sample world with no font installed. -/
def font_failure_world : World :=
  { sample_world with open_font := fun _ => none }

/-- The sample world in which `XftDrawCreate` fails. -/
def draw_failure_world : World :=
  { sample_world with draw := none }

/-! ## A model of the window stack

The server keeps the stacking order of the root's children and queues the events
the program selected: structure notifications of the root's children
(`SubstructureNotifyMask` on the root: `CreateNotify`, `MapNotify`,
`ConfigureNotify`, ...) and visibility and exposure events of the overlay. -/

/-- The values the loop body refers to. -/
structure Client where
  overlay : Window
  fl : Flags
  header_font : XftFont
  footer_font : XftFont
  foreground : XRenderColor
deriving DecidableEq, Repr

/-- The stacking order, topmost window first, and the queue of events not yet
fetched by `XNextEvent`. -/
structure Server where
  stack : List Window
  queue : List XEvent
deriving DecidableEq, Repr

/-- The stacking order after a window is put on top. -/
def put_on_top (w : Window) (stack : List Window) : List Window :=
  w :: stack.filter (fun v => v ≠ w)

/-- The effect of a call of the loop on the server: `XRaiseWindow` puts the
window on top and queues the `ConfigureNotify` the root's selection asks for;
drawing changes neither the stack nor the queue. -/
def Server.serve (s : Server) : Call → Server
  | Call.XRaiseWindow w =>
    { stack := put_on_top w s.stack, queue := s.queue ++ [⟨ConfigureNotify, 0, w⟩] }
  | _ => s

/-- One iteration of the loop: fetch the next event, if there is one, and run
the loop body on it; with an empty queue `XNextEvent` blocks. -/
def loop_round (c : Client) (s : Server) : Server :=
  match s.queue with
  | [] => s
  | e :: rest =>
    (handle_event c.overlay c.fl c.header_font c.footer_font c.foreground e).foldl
      Server.serve { s with queue := rest }

/-- A number of iterations of the loop. -/
def loop_rounds (c : Client) : Nat → Server → Server
  | 0, s => s
  | n + 1, s => loop_rounds c n (loop_round c s)

/-- The loop run until the queue is empty: two iterations for every queued event
are enough, since handling an event queues at most one further event, which
queues none. -/
def settle (c : Client) (s : Server) : Server :=
  loop_rounds c (2 * s.queue.length) s

/-- What other clients do to the overlay. -/
inductive Happening where
  /-- Another window is restacked to the top: `ConfigureNotify` for it. -/
  | restack (w : Window)
  /-- A new window is created and mapped on top: `CreateNotify` and `MapNotify`
  for it, and a `VisibilityNotify` for the overlay when the new window covers
  part of it. -/
  | create (w : Window) (covers : Bool)
  /-- The overlay becomes partially or fully obscured: `VisibilityNotify`. -/
  | obscure (fully : Bool)
deriving DecidableEq, Repr

/-- The effect of a happening on the stack and on the queue. -/
def Server.happen (c : Client) (s : Server) : Happening → Server
  | Happening.restack w =>
    { stack := put_on_top w s.stack, queue := s.queue ++ [⟨ConfigureNotify, 0, w⟩] }
  | Happening.create w covers =>
    { stack := put_on_top w s.stack
      queue := s.queue ++ [⟨CreateNotify, 0, w⟩, ⟨MapNotify, 0, w⟩] ++
        (if covers then [⟨VisibilityNotify, VisibilityPartiallyObscured, c.overlay⟩] else []) }
  | Happening.obscure fully =>
    { s with
      queue := s.queue ++
        [⟨VisibilityNotify,
          if fully then VisibilityFullyObscured else VisibilityPartiallyObscured, c.overlay⟩] }

/-- A step of the combined system: something happens, or the loop runs once. -/
inductive Step where
  | happens (h : Happening)
  | round
deriving DecidableEq, Repr

/-- The effect of a step. -/
def Server.step (c : Client) (s : Server) : Step → Server
  | Step.happens h => s.happen c h
  | Step.round => loop_round c s

/-- The effect of a sequence of steps. -/
def Server.run (c : Client) (s : Server) (steps : List Step) : Server :=
  steps.foldl (Server.step c) s

/-- Whether a happening comes with an event on which the loop raises. -/
def Happening.notified : Happening → Bool
  | Happening.restack _ => true
  | Happening.create _ covers => covers
  | Happening.obscure _ => true

/-- Whether the last happening of a sequence, if any, is a notified one: every
creation of a window that covers no part of the overlay is followed by a later
restacking, covering creation or obscuring. -/
def last_notified (steps : List Step) : Bool :=
  steps.foldl
    (fun b st =>
      match st with
      | Step.happens h => h.notified
      | Step.round => b)
    true

/-- Whether the loop raises on an event. -/
def raises_on (overlay : Window) (e : XEvent) : Bool :=
  (decide (e.type = VisibilityNotify) && decide (e.state ≠ VisibilityUnobscured)) ||
    (decide (e.type = ConfigureNotify) && decide (e.window ≠ overlay))

/-- The number of loop iterations a queue asks for: two for an event on which
the loop raises, one for any other. -/
def rounds_needed (overlay : Window) : List XEvent → Nat
  | [] => 0
  | e :: es => (if raises_on overlay e then 2 else 1) + rounds_needed overlay es

/-- The overlay is on top, or an event on which the loop raises is still queued. -/
def on_top_or_pending (c : Client) (s : Server) : Prop :=
  s.stack.head? = some c.overlay ∨ ∃ e ∈ s.queue, raises_on c.overlay e = true

/-- The client of the sample world. -/
def sample_client : Client :=
  { overlay := 5
    fl := default_flags
    header_font := ⟨"Roboto:size=15", 14, 4⟩
    footer_font := ⟨"Roboto:size=11", 10, 3⟩
    foreground := render_color 0x928374 }

/-- The server right after the overlay of the sample world is mapped. -/
def sample_server : Server := { stack := [5, 8, 9], queue := [] }

/-! ## Properties of the geometry -/

/-- The `size_t` maximum: the overlay is as wide as the wider of the two stored
widths, whichever it is. -/
theorem overlay_width_eq_max (header_width footer_width : Int) :
    overlay_width header_width footer_width = max header_width footer_width := by
  unfold overlay_width
  split <;> omega

/-- C1 (amended): when the differences `W - bw - px` and `H - bh - py` lie in the
range of `int`, the position passed to `XCreateWindow` satisfies
`x + bw + px = W` and `y + bh + py = H`. -/
theorem window_position_anchor (W H bw bh px py : Int)
    (hx : -2147483648 ≤ W - bw - px ∧ W - bw - px < 2147483648)
    (hy : -2147483648 ≤ H - bh - py ∧ H - bh - py < 2147483648) :
    window_x W bw px + bw + px = W ∧ window_y H bh py + bh + py = H := by
  unfold window_x window_y size_sub to_int to_size_t
  constructor <;> omega

/-- The anchor equations on the 1920x1080 screen of the end-to-end example. -/
theorem window_position_anchor_witness :
    window_x 1920 210 25 + 210 + 25 = 1920 ∧ window_y 1080 31 49 + 31 + 49 = 1080 :=
  window_position_anchor 1920 1080 210 31 25 49 (by decide) (by decide)

/-- C1 as stated fails: on a 1920 pixel wide screen with a 210 pixel wide box and
`xpad = 2^32` the window is created at `x = 1710`, and `1710 + 210 + 2^32` is not
`1920`. -/
theorem window_position_anchor_fails :
    window_x 1920 210 4294967296 = 1710 ∧
      window_x 1920 210 4294967296 + 210 + 4294967296 ≠ 1920 := by
  decide

/-- C2: for advance widths `w_h`, `w_f` (non-negative values of the `short`
field `xOff`) and font metrics whose sum is a non-negative `int`, the overlay
is `max w_h w_f` wide and `header.ascent + header.descent + footer.ascent +
footer.descent` high. -/
theorem overlay_geometry (w_h w_f : Int) (header_font footer_font : XftFont)
    (hh : 0 ≤ w_h ∧ w_h < 32768) (hf : 0 ≤ w_f ∧ w_f < 32768)
    (hm : 0 ≤ header_font.ascent + header_font.descent + footer_font.ascent +
            footer_font.descent ∧
          header_font.ascent + header_font.descent + footer_font.ascent +
            footer_font.descent < 2147483648) :
    overlay_width (text_width w_h) (text_width w_f) = max w_h w_f ∧
      overlay_height header_font footer_font =
        header_font.ascent + header_font.descent + footer_font.ascent +
          footer_font.descent := by
  constructor
  · rw [overlay_width_eq_max]
    unfold text_width to_size_t
    omega
  · unfold overlay_height int_add to_int to_size_t
    omega

/-- The geometry of the end-to-end example: widths 140 and 210, metrics 14, 4, 10, 3. -/
theorem overlay_geometry_witness :
    overlay_width (text_width 140) (text_width 210) = max 140 210 ∧
      overlay_height ⟨"A", 14, 4⟩ ⟨"B", 10, 3⟩ = 14 + 4 + 10 + 3 :=
  overlay_geometry 140 210 ⟨"A", 14, 4⟩ ⟨"B", 10, 3⟩ (by decide) (by decide) (by decide)

/-! ## Properties of the event handler -/

/-- C3: on a `VisibilityNotify` event the handler raises the overlay, and does
nothing else, when the reported state is not `VisibilityUnobscured`; it issues
no call at all when the state is `VisibilityUnobscured`. -/
theorem visibility_event_raise (overlay : Window) (fl : Flags) (header_font footer_font : XftFont)
    (fg : XRenderColor) (e : XEvent) (h : e.type = VisibilityNotify) :
    (e.state ≠ VisibilityUnobscured →
        handle_event overlay fl header_font footer_font fg e = [Call.XRaiseWindow overlay]) ∧
      (e.state = VisibilityUnobscured →
        handle_event overlay fl header_font footer_font fg e = []) := by
  constructor <;> intro hs <;>
    simp [handle_event, h, hs, VisibilityNotify, ConfigureNotify, Expose]

/-- A fully obscured overlay is raised, an unobscured one is left alone. -/
theorem visibility_event_raise_witness :
    handle_event 5 default_flags ⟨"A", 14, 4⟩ ⟨"B", 10, 3⟩ (render_color 0x928374)
        ⟨15, 2, 0⟩ = [Call.XRaiseWindow 5] ∧
      handle_event 5 default_flags ⟨"A", 14, 4⟩ ⟨"B", 10, 3⟩ (render_color 0x928374)
        ⟨15, 0, 0⟩ = [] :=
  ⟨(visibility_event_raise 5 default_flags ⟨"A", 14, 4⟩ ⟨"B", 10, 3⟩ (render_color 0x928374)
      ⟨15, 2, 0⟩ (by decide)).1 (by decide),
   (visibility_event_raise 5 default_flags ⟨"A", 14, 4⟩ ⟨"B", 10, 3⟩ (render_color 0x928374)
      ⟨15, 0, 0⟩ (by decide)).2 (by decide)⟩

/-- C4: on a `ConfigureNotify` event the handler raises the overlay, and does
nothing else, when the event's window is not the overlay; it issues no call at
all when the event's window is the overlay. -/
theorem configure_event_raise (overlay : Window) (fl : Flags) (header_font footer_font : XftFont)
    (fg : XRenderColor) (e : XEvent) (h : e.type = ConfigureNotify) :
    (e.window ≠ overlay →
        handle_event overlay fl header_font footer_font fg e = [Call.XRaiseWindow overlay]) ∧
      (e.window = overlay →
        handle_event overlay fl header_font footer_font fg e = []) := by
  constructor <;> intro hs <;>
    simp [handle_event, h, hs, VisibilityNotify, ConfigureNotify, Expose]

/-- A `ConfigureNotify` of window 9 raises overlay 5, one of the overlay itself does not. -/
theorem configure_event_raise_witness :
    handle_event 5 default_flags ⟨"A", 14, 4⟩ ⟨"B", 10, 3⟩ (render_color 0x928374)
        ⟨22, 0, 9⟩ = [Call.XRaiseWindow 5] ∧
      handle_event 5 default_flags ⟨"A", 14, 4⟩ ⟨"B", 10, 3⟩ (render_color 0x928374)
        ⟨22, 0, 5⟩ = [] :=
  ⟨(configure_event_raise 5 default_flags ⟨"A", 14, 4⟩ ⟨"B", 10, 3⟩ (render_color 0x928374)
      ⟨22, 0, 9⟩ (by decide)).1 (by decide),
   (configure_event_raise 5 default_flags ⟨"A", 14, 4⟩ ⟨"B", 10, 3⟩ (render_color 0x928374)
      ⟨22, 0, 5⟩ (by decide)).2 (by decide)⟩

/-- The loop handles a further event after every earlier one, whatever these were. -/
theorem event_loop_append (overlay : Window) (fl : Flags) (header_font footer_font : XftFont)
    (fg : XRenderColor) (earlier : List XEvent) (e : XEvent) :
    event_loop overlay fl header_font footer_font fg (earlier ++ [e]) =
      event_loop overlay fl header_font footer_font fg earlier ++
        Call.XNextEvent :: handle_event overlay fl header_font footer_font fg e := by
  induction earlier with
  | nil => simp [event_loop]
  | cons a as ih => simp [event_loop, ih]

/-- C6: on an `Expose` event (the three metrics summing within `int`) the handler
issues exactly two calls and no raise: the header text in the header font at
`(0, header.ascent)`, then the footer text in the footer font at
`(0, header.ascent + header.descent + footer.ascent)`, both in the colour built
from the configured foreground; and after any earlier events the loop issues
these same two calls for it. -/
theorem expose_event_draws (overlay : Window) (fl : Flags) (header_font footer_font : XftFont)
    (e : XEvent) (h : e.type = Expose)
    (hm : -2147483648 ≤ header_font.ascent + header_font.descent + footer_font.ascent ∧
          header_font.ascent + header_font.descent + footer_font.ascent < 2147483648) :
    handle_event overlay fl header_font footer_font (render_color fl.foreground_color) e =
        [Call.XftDrawStringUtf8 (render_color fl.foreground_color) header_font 0
           header_font.ascent fl.header_text,
         Call.XftDrawStringUtf8 (render_color fl.foreground_color) footer_font 0
           (header_font.ascent + header_font.descent + footer_font.ascent) fl.footer_text] ∧
      ∀ earlier : List XEvent,
        event_loop overlay fl header_font footer_font (render_color fl.foreground_color)
            (earlier ++ [e]) =
          event_loop overlay fl header_font footer_font (render_color fl.foreground_color)
              earlier ++
            [Call.XNextEvent,
             Call.XftDrawStringUtf8 (render_color fl.foreground_color) header_font 0
               header_font.ascent fl.header_text,
             Call.XftDrawStringUtf8 (render_color fl.foreground_color) footer_font 0
               (header_font.ascent + header_font.descent + footer_font.ascent)
               fl.footer_text] := by
  have hy : footer_baseline header_font footer_font =
      header_font.ascent + header_font.descent + footer_font.ascent := by
    unfold footer_baseline int_add to_int
    omega
  have hd : handle_event overlay fl header_font footer_font (render_color fl.foreground_color) e =
      [Call.XftDrawStringUtf8 (render_color fl.foreground_color) header_font 0
         header_font.ascent fl.header_text,
       Call.XftDrawStringUtf8 (render_color fl.foreground_color) footer_font 0
         (header_font.ascent + header_font.descent + footer_font.ascent) fl.footer_text] := by
    simp [handle_event, h, hy, VisibilityNotify, ConfigureNotify, Expose]
  refine ⟨hd, fun earlier => ?_⟩
  rw [event_loop_append, hd]

/-- The two draws of the end-to-end example, at baselines 14 and 28. -/
theorem expose_event_draws_witness :
    handle_event 5 default_flags ⟨"A", 14, 4⟩ ⟨"B", 10, 3⟩
        (render_color default_flags.foreground_color) ⟨12, 0, 5⟩ =
      [Call.XftDrawStringUtf8 (render_color 0x928374) ⟨"A", 14, 4⟩ 0 14 "Activate Linux",
       Call.XftDrawStringUtf8 (render_color 0x928374) ⟨"B", 10, 3⟩ 0 28
         "Go to Settings to activate Linux"] :=
  (expose_event_draws 5 default_flags ⟨"A", 14, 4⟩ ⟨"B", 10, 3⟩ ⟨12, 0, 5⟩ (by decide)
    (by decide)).1

/-! ## Properties of the colour -/

/-- The channels `render_color` computes: bytes 2, 1 and 0 of the packed colour
in the high byte of red, green and blue, and the constant 255 as alpha. -/
theorem render_color_channels (c : Nat) :
    render_color c =
      { red := c / 65536 % 256 * 256
        green := c / 256 % 256 * 256
        blue := c % 256 * 256
        alpha := 255 } := by
  have hmask : ∀ n : Nat, n &&& 0xFF = n % 256 := fun n =>
    Nat.and_pow_two_sub_one_eq_mod n 8
  simp [render_color, hmask, Nat.shiftRight_eq_div_pow, Nat.shiftLeft_eq]

/-- C7 fails on the code: for the default foreground `0x928374` the colour built
has alpha `0x00FF`, not the full `0xFFFF`; the older program builds alpha
`0xFF00` for its `0xFF928374`. -/
theorem render_color_alpha_low :
    render_color 0x928374 = { red := 0x9200, green := 0x8300, blue := 0x7400, alpha := 0x00FF } ∧
      (render_color 0x928374).alpha ≠ 0xFFFF ∧
      (legacy_render_color LEGACY_FOREGROUND_COLOR).alpha = 0xFF00 := by
  decide

/-! ## Properties of startup and the unwind block -/

/-- C8: when the display cannot be opened, a font cannot be opened, no 32-bit
TrueColor visual is found or the draw context is not created, `main` returns 1
and has issued neither `XMapWindow` nor any call of the event loop. -/
theorem fatal_startup_exit (w : World) (fl : Flags) (hfl : w.flags = some fl)
    (hhelp : fl.help = false)
    (herr : w.display = none ∨ w.open_font fl.header_font_name = none ∨
      w.open_font fl.footer_font_name = none ∨ w.visual = none ∨ w.draw = none) :
    (main w).exit = some 1 ∧
      ∀ c ∈ (main w).calls, c.maps_window = false ∧ c.in_loop = false := by
  unfold main
  simp only [hfl, hhelp]
  unfold run_overlay
  cases hd : w.display with
  | none => simp [return_defer, defer, Call.maps_window, Call.in_loop]
  | some d =>
    cases hh : w.open_font fl.header_font_name with
    | none =>
      cases hf : w.open_font fl.footer_font_name <;>
        simp [return_defer, defer, Call.maps_window, Call.in_loop]
    | some hfont =>
      cases hf : w.open_font fl.footer_font_name with
      | none => simp [return_defer, defer, Call.maps_window, Call.in_loop]
      | some ffont =>
        cases hv : w.visual with
        | none => simp [return_defer, defer, Call.maps_window, Call.in_loop]
        | some vi =>
          cases hdr : w.draw with
          | none => simp [return_defer, defer, Call.maps_window, Call.in_loop]
          | some dr => simp [hd, hh, hf, hv, hdr] at herr

/-- A failing `XftDrawCreate` ends the sample run with status 1, nothing mapped. -/
theorem fatal_startup_exit_witness :
    (main draw_failure_world).exit = some 1 ∧
      ∀ c ∈ (main draw_failure_world).calls, c.maps_window = false ∧ c.in_loop = false :=
  fatal_startup_exit draw_failure_world default_flags rfl rfl (by decide)

/-- When every startup step succeeds the window is mapped, the loop is entered
and the program has no exit status. -/
theorem successful_startup_maps (w : World) (fl : Flags) (d : Display) (hfont ffont : XftFont)
    (vi : XVisualInfo) (dr : XftDraw) (hfl : w.flags = some fl) (hhelp : fl.help = false)
    (hd : w.display = some d) (hh : w.open_font fl.header_font_name = some hfont)
    (hf : w.open_font fl.footer_font_name = some ffont) (hv : w.visual = some vi)
    (hdr : w.draw = some dr) :
    (main w).exit = none ∧ Call.XMapWindow w.overlay ∈ (main w).calls ∧
      Call.XNextEvent ∈ (main w).calls := by
  unfold main
  simp only [hfl, hhelp]
  unfold run_overlay
  simp [hd, hh, hf, hv, hdr]

/-- C9 fails on the code: with the display open and no font installed the unwind
block issues `XFreeColormap` and `XDestroyWindow` on a colormap and a window
that were never created, before closing the display. -/
theorem font_failure_releases_unacquired :
    main font_failure_world =
        { calls :=
            [Call.XOpenDisplay (some 1),
             Call.XftFontOpenName "Roboto:size=15" none,
             Call.XftFontOpenName "Roboto:size=11" none,
             Call.fprintf "error: could not open font\n",
             Call.XFreeColormap none,
             Call.XDestroyWindow none,
             Call.XCloseDisplay 1]
          exit := some 1 } ∧
      acquired (main font_failure_world) = [Resource.display] ∧
      released (main font_failure_world) =
        [Resource.colormap, Resource.window, Resource.display] := by
  decide

/-- The event handler releases nothing. -/
theorem handle_event_releases_nothing (overlay : Window) (fl : Flags)
    (header_font footer_font : XftFont) (fg : XRenderColor) (e : XEvent) :
    (handle_event overlay fl header_font footer_font fg e).filterMap Call.releases = [] := by
  unfold handle_event
  split_ifs <;> simp [Call.releases]

/-- The event loop releases nothing. -/
theorem event_loop_releases_nothing (overlay : Window) (fl : Flags)
    (header_font footer_font : XftFont) (fg : XRenderColor) (es : List XEvent) :
    (event_loop overlay fl header_font footer_font fg es).filterMap Call.releases = [] := by
  induction es with
  | nil => simp [event_loop]
  | cons e es ih =>
    simp [event_loop, List.filterMap_append, ih, handle_event_releases_nothing, Call.releases]

/-- The unwind block of either program goes through the resources in the fixed
order of `release_order`. -/
theorem run_overlay_release_order (fl : Flags) (color : XRenderColor) (w : World) :
    (released (run_overlay fl color w)).Sublist
      (release_order (w.open_font fl.header_font_name) (w.open_font fl.footer_font_name)) := by
  unfold run_overlay released release_order
  cases hd : w.display with
  | none => simp [return_defer, defer, Call.releases]
  | some d =>
    cases hh : w.open_font fl.header_font_name with
    | none =>
      cases hf : w.open_font fl.footer_font_name <;>
        simp [return_defer, defer, Call.releases]
    | some hfont =>
      cases hf : w.open_font fl.footer_font_name with
      | none => simp [return_defer, defer, Call.releases]
      | some ffont =>
        cases hv : w.visual with
        | none => simp [return_defer, defer, Call.releases]
        | some vi =>
          cases hdr : w.draw with
          | none => simp [return_defer, defer, Call.releases]
          | some dr => simp [Call.releases, event_loop_releases_nothing]

/-- C10 (amended): on every path of `main`, of the flag-driven program and of the
older one, the resources released appear in the fixed order header font,
footer font, colour, draw context, colormap, window, display connection. -/
theorem unwind_release_order (w : World) (fl : Flags) (hfl : w.flags = some fl) :
    (released (main w)).Sublist
        (release_order (w.open_font fl.header_font_name) (w.open_font fl.footer_font_name)) ∧
      (released (legacy_main w)).Sublist
        (release_order (w.open_font "Roboto:size=15") (w.open_font "Roboto:size=11")) := by
  constructor
  · unfold main
    simp only [hfl]
    split
    · simp [released, Call.releases]
    · exact run_overlay_release_order fl _ w
  · exact run_overlay_release_order LEGACY_CONFIG _ w

/-- The release order of both programs when `XftDrawCreate` fails in the sample world. -/
theorem unwind_release_order_witness :
    (released (main draw_failure_world)).Sublist
        (release_order (some ⟨"Roboto:size=15", 14, 4⟩) (some ⟨"Roboto:size=11", 10, 3⟩)) ∧
      (released (legacy_main draw_failure_world)).Sublist
        (release_order (some ⟨"Roboto:size=15", 14, 4⟩) (some ⟨"Roboto:size=11", 10, 3⟩)) :=
  unwind_release_order draw_failure_world default_flags rfl

/-- C10 as stated fails: when `XftDrawCreate` fails, startup has acquired the
display, the header font, the footer font, the colormap and the window, and
the unwind block releases the header font, the footer font, the colormap, the
window and the display, which is not the reverse order. -/
theorem unwind_not_reverse_order :
    acquired (main draw_failure_world) =
        [Resource.display, Resource.font ⟨"Roboto:size=15", 14, 4⟩,
         Resource.font ⟨"Roboto:size=11", 10, 3⟩, Resource.colormap, Resource.window] ∧
      released (main draw_failure_world) =
        [Resource.font ⟨"Roboto:size=15", 14, 4⟩, Resource.font ⟨"Roboto:size=11", 10, 3⟩,
         Resource.colormap, Resource.window, Resource.display] ∧
      released (main draw_failure_world) ≠ (acquired (main draw_failure_world)).reverse ∧
      ¬ (released (main draw_failure_world)).Sublist
          (acquired (main draw_failure_world)).reverse := by
  decide

/-! ## Properties of the loop against the window stack -/

/-- One iteration of the loop on a non-empty queue: when the loop raises on the
event fetched, the overlay goes on top and its own `ConfigureNotify` is queued;
otherwise only the event is consumed. -/
theorem loop_round_cons (c : Client) (stack : List Window) (e : XEvent) (rest : List XEvent) :
    loop_round c ⟨stack, e :: rest⟩ =
      if raises_on c.overlay e = true then
        ⟨put_on_top c.overlay stack, rest ++ [⟨ConfigureNotify, 0, c.overlay⟩]⟩
      else ⟨stack, rest⟩ := by
  rcases e with ⟨t, st, win⟩
  simp only [loop_round, handle_event, raises_on, VisibilityNotify, ConfigureNotify, Expose,
    VisibilityUnobscured]
  split_ifs <;> simp_all [Server.serve, ConfigureNotify]

theorem rounds_needed_append (overlay : Window) (a b : List XEvent) :
    rounds_needed overlay (a ++ b) = rounds_needed overlay a + rounds_needed overlay b := by
  induction a with
  | nil => simp [rounds_needed]
  | cons e es ih => simp [rounds_needed, ih, Nat.add_assoc]

theorem rounds_needed_le (overlay : Window) (q : List XEvent) :
    rounds_needed overlay q ≤ 2 * q.length := by
  induction q with
  | nil => simp [rounds_needed]
  | cons e es ih =>
    simp only [rounds_needed, List.length_cons]
    split_ifs <;> omega

/-- The loop does not raise on the `ConfigureNotify` of its own raise. -/
theorem raises_on_own_configure (overlay : Window) :
    raises_on overlay ⟨ConfigureNotify, 0, overlay⟩ = false := by
  simp [raises_on, ConfigureNotify, VisibilityNotify]

/-- Every iteration on a non-empty queue brings the loop one iteration closer to
an empty queue. -/
theorem rounds_needed_loop_round (c : Client) (stack : List Window) (e : XEvent)
    (rest : List XEvent) :
    rounds_needed c.overlay (loop_round c ⟨stack, e :: rest⟩).queue + 1 =
      rounds_needed c.overlay (e :: rest) := by
  rw [loop_round_cons]
  by_cases h : raises_on c.overlay e = true
  · simp [h, rounds_needed, rounds_needed_append, raises_on_own_configure]
    omega
  · simp [h, rounds_needed]
    omega

/-- Enough iterations empty the queue. -/
theorem loop_rounds_empties (c : Client) (n : Nat) (s : Server)
    (h : rounds_needed c.overlay s.queue ≤ n) : (loop_rounds c n s).queue = [] := by
  induction n generalizing s with
  | zero =>
    rcases s with ⟨stack, queue⟩
    cases queue with
    | nil => rfl
    | cons e es =>
      simp only [rounds_needed] at h
      split_ifs at h <;> omega
  | succ n ih =>
    rcases s with ⟨stack, queue⟩
    cases queue with
    | nil =>
      simp only [loop_rounds, loop_round]
      exact ih _ (by simp [rounds_needed])
    | cons e es =>
      simp only [loop_rounds]
      apply ih
      have := rounds_needed_loop_round c stack e es
      simp only at h
      omega

theorem loop_round_keeps (c : Client) (s : Server) (h : on_top_or_pending c s) :
    on_top_or_pending c (loop_round c s) := by
  rcases s with ⟨stack, queue⟩
  cases queue with
  | nil => simpa [loop_round] using h
  | cons e es =>
    rw [loop_round_cons]
    by_cases hr : raises_on c.overlay e = true
    · left
      simp [hr, put_on_top]
    · simp only [hr, if_false]
      rcases h with h | ⟨x, hx, hxr⟩
      · exact Or.inl h
      · right
        simp only [List.mem_cons] at hx
        rcases hx with rfl | hx
        · exact absurd hxr hr
        · exact ⟨x, hx, hxr⟩

theorem loop_rounds_keeps (c : Client) (n : Nat) (s : Server) (h : on_top_or_pending c s) :
    on_top_or_pending c (loop_rounds c n s) := by
  induction n generalizing s with
  | zero => exact h
  | succ n ih => exact ih _ (loop_round_keeps c s h)

/-- After a notified happening the overlay is on top or a raise is pending. -/
theorem happen_notified (c : Client) (s : Server) (h : Happening) (hn : h.notified = true) :
    on_top_or_pending c (s.happen c h) := by
  cases h with
  | restack w =>
    by_cases hw : w = c.overlay
    · left
      simp [Server.happen, put_on_top, hw]
    · right
      exact ⟨⟨ConfigureNotify, 0, w⟩, by simp [Server.happen],
        by simp [raises_on, ConfigureNotify, VisibilityNotify, hw]⟩
  | create w covers =>
    simp only [Happening.notified] at hn
    right
    exact ⟨⟨VisibilityNotify, VisibilityPartiallyObscured, c.overlay⟩,
      by simp [Server.happen, hn],
      by simp [raises_on, VisibilityNotify, VisibilityPartiallyObscured, VisibilityUnobscured]⟩
  | obscure fully =>
    right
    refine ⟨⟨VisibilityNotify,
      if fully then VisibilityFullyObscured else VisibilityPartiallyObscured, c.overlay⟩,
      by simp [Server.happen], ?_⟩
    cases fully <;>
      simp [raises_on, VisibilityNotify, VisibilityPartiallyObscured, VisibilityFullyObscured,
        VisibilityUnobscured]

theorem run_keeps (c : Client) (steps : List Step) (s : Server) (b : Bool)
    (h : b = true → on_top_or_pending c s)
    (hl : steps.foldl
        (fun b st =>
          match st with
          | Step.happens h => h.notified
          | Step.round => b) b = true) :
    on_top_or_pending c (s.run c steps) := by
  induction steps generalizing s b with
  | nil => exact h (by simpa using hl)
  | cons st rest ih =>
    simp only [Server.run, List.foldl_cons] at hl ⊢
    cases st with
    | happens x =>
      exact ih (s.step c (Step.happens x)) x.notified
        (fun hx => happen_notified c s x hx) hl
    | round =>
      exact ih (s.step c Step.round) b (fun hb => loop_round_keeps c s (h hb)) hl

/-- C5 (amended): start with the overlay on top, let restackings, creations and
obscurings happen in any interleaving with iterations of the loop, such that
every creation of a window covering no part of the overlay is followed by a
later restacking, covering creation or obscuring, and then let the loop handle
all queued events: the queue is empty and the overlay is on top of the stack. -/
theorem overlay_on_top_after_settle (c : Client) (s0 : Server) (steps : List Step)
    (h0 : s0.stack.head? = some c.overlay) (hn : last_notified steps = true) :
    (settle c (s0.run c steps)).queue = [] ∧
      (settle c (s0.run c steps)).stack.head? = some c.overlay := by
  have hq : (settle c (s0.run c steps)).queue = [] :=
    loop_rounds_empties c _ _ (rounds_needed_le c.overlay _)
  have hi : on_top_or_pending c (settle c (s0.run c steps)) :=
    loop_rounds_keeps c _ _ (run_keeps c steps s0 true (fun _ => Or.inl h0) hn)
  refine ⟨hq, ?_⟩
  rcases hi with h | ⟨e, he, _⟩
  · exact h
  · rw [hq] at he
    cases he

/-- A creation beside the overlay followed by a restacking and an obscuring: the overlay ends on top. -/
theorem overlay_on_top_after_settle_witness :
    (settle sample_client
        (sample_server.run sample_client
          [Step.happens (Happening.create 7 false), Step.round,
           Step.happens (Happening.restack 9), Step.happens (Happening.obscure true)])).queue
        = [] ∧
      (settle sample_client
        (sample_server.run sample_client
          [Step.happens (Happening.create 7 false), Step.round,
           Step.happens (Happening.restack 9), Step.happens (Happening.obscure true)])).stack.head?
        = some sample_client.overlay :=
  overlay_on_top_after_settle sample_client sample_server
    [Step.happens (Happening.create 7 false), Step.round,
     Step.happens (Happening.restack 9), Step.happens (Happening.obscure true)]
    (by decide) (by decide)

/-- C5 as stated fails: a window created on top of the stack that covers no part
of the overlay is announced by `CreateNotify` and `MapNotify` only; the loop
issues no call on either, and once both are handled the new window is still
above the overlay. -/
theorem overlay_below_created_window :
    handle_event 5 default_flags ⟨"Roboto:size=15", 14, 4⟩ ⟨"Roboto:size=11", 10, 3⟩
        (render_color 0x928374) ⟨CreateNotify, 0, 7⟩ = [] ∧
      handle_event 5 default_flags ⟨"Roboto:size=15", 14, 4⟩ ⟨"Roboto:size=11", 10, 3⟩
        (render_color 0x928374) ⟨MapNotify, 0, 7⟩ = [] ∧
      settle sample_client
          (sample_server.run sample_client [Step.happens (Happening.create 7 false)]) =
        { stack := [7, 5, 8, 9], queue := [] } ∧
      (settle sample_client
          (sample_server.run sample_client
            [Step.happens (Happening.create 7 false)])).stack.head? ≠
        some sample_client.overlay := by
  decide

/-- The end-to-end example: on a 1920x1080 screen with the default paddings the
window is created at (1685, 1000) with size 210x31. -/
theorem sample_world_window :
    Call.XCreateWindow 1685 1000 210 31 5 ∈ (main sample_world).calls := by
  decide

end ActivateLinux
